import Mathlib

/-!
# MKLDNNCommon: the bridge between runtime tensors and ideep tensors

A shallow embedding of `aten/src/ATen/native/mkldnn/MKLDNNCommon.cpp`:
`IntrusivePtrTargetWrapper`, `get_mkldnn_dtype`, `new_with_itensor_mkldnn`,
`itensor_from_mkldnn`, `itensor_view_from_dense` and `itensor_from_tensor`.

Conventions of the embedding.

* A function that can throw returns `Except Error α`; `Error` records which
  assertion form of the source raised it together with the text that
  the source hands to it.
* Machine integers are integers of `Int` confined to the range of their width;
  a conversion between widths reduces modulo `2 ^ width` (`wrap`).
* The thread-local dispatch state read by
  `at::impl::variable_excluded_from_dispatch()` is an explicit argument.
* Types and helpers that the file uses but that are declared in other headers
  (`ScalarType`, `DispatchKey`, `TensorImpl`, `ideep::tensor`, ...) are modelled
  here; each such definition says so in its doc comment.
-/

namespace MKLDNNCommon

/-! ## Errors -/

/-- The exception thrown by a failed assertion, tagged with the assertion form used in
the source: `AT_ASSERTM(cond, msg)` carries the message literal `msg`, and
`TORCH_INTERNAL_ASSERT(cond)` carries the text of the asserted condition. -/
inductive Error where
  | AT_ASSERTM (msg : String)
  | TORCH_INTERNAL_ASSERT (cond : String)
  deriving DecidableEq, Repr

/-- The message text carried by an error. -/
def Error.what : Error → String
  | .AT_ASSERTM msg => msg
  | .TORCH_INTERNAL_ASSERT cond => cond

/-! ## Machine integers -/

/-- Two's-complement reduction of an integer to a signed width of `bits` bits. -/
def wrap (bits : Nat) (v : Int) : Int :=
  (v + 2 ^ (bits - 1)) % 2 ^ bits - 2 ^ (bits - 1)

/-- Values of the C++ type `int32_t`. -/
structure int32_t where
  val : Int
  in_range : -2147483648 ≤ val ∧ val < 2147483648
  deriving DecidableEq, Repr

/-- Values of the C++ type `int64_t`. -/
structure int64_t where
  val : Int
  in_range : -9223372036854775808 ≤ val ∧ val < 9223372036854775808
  deriving DecidableEq, Repr

/-- Conversion of an `int32_t` to `int64_t`, as performed element by element by
`std::vector<int64_t>(dims.begin(), dims.end())`. -/
def int64_of_int32 (x : int32_t) : int64_t :=
  ⟨wrap 64 x.val, by unfold wrap; norm_num; omega⟩

/-- Conversion of an `int64_t` to `int32_t`, as performed element by element when an
`ideep::tensor::dims` is built from the range `sizes().cbegin() .. sizes().cend()`. -/
def int32_of_int64 (x : int64_t) : int32_t :=
  ⟨wrap 32 x.val, by unfold wrap; norm_num; omega⟩

/-! ## Enumerations of the surrounding runtime -/

/-- Modelled from the spec: the runtime's scalar-type enumeration (`c10::ScalarType`,
declared in a header outside this file). The supported set of the dtype mapping and
the unsupported examples (Int, Char, Double, Half, Long, Bool) are members. -/
inductive ScalarType where
  | Byte | Char | Short | Int | Long | Half | Float | Double
  | ComplexHalf | ComplexFloat | ComplexDouble | Bool
  | QInt8 | QUInt8 | QInt32 | BFloat16 | Undefined
  deriving DecidableEq, Repr

/-- Modelled from the spec: the device kinds of the runtime (`c10::DeviceType`); host
memory is `CPU`. -/
inductive DeviceType where
  | CPU | CUDA | MKLDNN | OPENGL | OPENCL | IDEEP | HIP | FPGA | MSNPU | XLA
  deriving DecidableEq, Repr

/-- Modelled from the spec: a device is a device kind and an index (`c10::Device`). -/
structure Device where
  type : DeviceType
  index : Int
  deriving DecidableEq, Repr

/-- Modelled from the spec: the storage layouts of the runtime (`c10::Layout`). -/
inductive Layout where
  | Strided | Sparse | Mkldnn
  deriving DecidableEq, Repr

/-- Modelled from the spec: the dispatch keys that serve as provenance tags
(`c10::DispatchKey`); `MkldnnCPUTensorId` marks a foreign-backed tensor and
`VariableTensorId` is the key of the automatic-differentiation layer. -/
inductive DispatchKey where
  | Undefined | CPUTensorId | CUDATensorId | HIPTensorId | MSNPUTensorId | XLATensorId
  | MkldnnCPUTensorId | QuantizedCPUTensorId
  | SparseCPUTensorId | SparseCUDATensorId | SparseHIPTensorId
  | VariableTensorId
  deriving DecidableEq, Repr

/-- Modelled from the spec: a set of dispatch keys (`c10::DispatchKeySet`). -/
structure DispatchKeySet where
  keys : List DispatchKey
  deriving DecidableEq, Repr

/-- Membership test of a dispatch key set. -/
def DispatchKeySet.has (s : DispatchKeySet) (k : DispatchKey) : Bool :=
  s.keys.contains k

/-- Modelled from the spec: the thread-local dispatch state, the keys currently
included and excluded for the calling thread (`c10::impl::LocalDispatchKeySet`). -/
structure LocalDispatchKeySet where
  included_ : DispatchKeySet
  excluded_ : DispatchKeySet
  deriving DecidableEq, Repr

/-- Modelled from the spec: `at::impl::variable_excluded_from_dispatch()`, true when the
automatic-differentiation layer has stripped itself out of dispatch for this call. -/
def variable_excluded_from_dispatch (tls : LocalDispatchKeySet) : Bool :=
  tls.excluded_.has DispatchKey.VariableTensorId

/-- Modelled from the spec: the dtype and device handed to a tensor constructor
(`c10::TensorOptions`, read through `options.dtype()` and `options.device()`). -/
structure TensorOptions where
  dtype : ScalarType
  device : Device
  deriving DecidableEq, Repr

/-! ## The foreign library's tensor -/

namespace ideep

/-- Modelled from the spec: the foreign library's data-type enumeration
(`ideep::tensor::data_type`). -/
inductive data_type where
  | undef | f32 | s32 | s16 | s8 | u8 | bf16
  deriving DecidableEq, Repr

/-- Modelled from the spec: the Foreign Tensor Value (`ideep::tensor`): a dimension
sequence of `int32_t`, a data-type tag and a data pointer. A value built as
`{{dims, dt}, ptr}` has exactly these three components. -/
structure tensor where
  dims : List int32_t
  data_type : data_type
  data_handle : Nat
  deriving DecidableEq, Repr

/-- The dimension accessor `it.get_dims()`. -/
def tensor.get_dims (it : tensor) : List int32_t := it.dims

/-- The state in which a variable of type `ideep::tensor` is left once its value has been
moved out of it: an empty handle, without dimensions. -/
def tensor.moved_from : tensor := { dims := [], data_type := data_type.undef, data_handle := 0 }

end ideep

/-- The expression `std::move(it)` handed to a move constructor. The first component is the
value received by the constructor, the second the state left in the source variable. -/
def std_move (it : ideep.tensor) : ideep.tensor × ideep.tensor :=
  (it, ideep.tensor.moved_from)

/-! ## IntrusivePtrTargetWrapper -/

/-- The wrapper `IntrusivePtrTargetWrapper<T>`: it holds exactly one `T` in `target_`. There
is no default constructor; the only constructors store the given value. -/
structure IntrusivePtrTargetWrapper (T : Type) where
  target_ : T
  deriving DecidableEq, Repr

/-- The accessor `get_target()`: returns the stored `target_`. -/
def IntrusivePtrTargetWrapper.get_target {T : Type} (w : IntrusivePtrTargetWrapper T) : T :=
  w.target_

/-- The alias `IDeepTensorWrapper = IntrusivePtrTargetWrapper<ideep::tensor>`. -/
abbrev IDeepTensorWrapper := IntrusivePtrTargetWrapper ideep.tensor

/-- The alias `IDeepTensorWrapperPtr = c10::intrusive_ptr<IDeepTensorWrapper>`; the pointer
is identified with the wrapper it points to. -/
abbrev IDeepTensorWrapperPtr := IDeepTensorWrapper

/-- The call `c10::make_intrusive<IDeepTensorWrapper>(target)`: allocates a wrapper through
the constructor `IntrusivePtrTargetWrapper(T&& target)`. -/
def make_intrusive (target : ideep.tensor) : IDeepTensorWrapperPtr :=
  IntrusivePtrTargetWrapper.mk target

/-! ## Runtime tensors -/

/-- Modelled from the spec: the Runtime Tensor (`at::Tensor`, a handle to a `TensorImpl`).
It records the provenance tag (`key_set`), dtype and device, the signed 64-bit shape
and strides, and the data pointer of its dense storage. A foreign-backed tensor is an
`OpaqueTensorImpl<IDeepTensorWrapperPtr>` and, besides, holds `opaque_handle_`. The key
`MkldnnCPUTensorId` is attached by `make_tensor<MKLDNNTensorImpl>` only, so a tensor
that carries it holds a handle (`mkldnn_has_handle`); this is what makes the
`static_cast<MKLDNNTensorImpl *>` of the source defined. -/
structure Tensor where
  key_set : DispatchKeySet
  dtype : ScalarType
  device : Device
  sizes : List int64_t
  strides : List int64_t
  data_ptr : Nat
  opaque_handle_ : Option IDeepTensorWrapperPtr
  mkldnn_has_handle :
    key_set.has DispatchKey.MkldnnCPUTensorId = true → opaque_handle_.isSome = true

/-- Modelled from the spec: the provenance check `tensor.is_mkldnn()`, true when the
tensor is tagged foreign-backed. -/
def Tensor.is_mkldnn (t : Tensor) : Bool :=
  t.key_set.has DispatchKey.MkldnnCPUTensorId

/-- Modelled from the spec: `tensor.is_sparse()`, true when the tensor carries one of
the sparse provenance tags. -/
def Tensor.is_sparse (t : Tensor) : Bool :=
  t.key_set.has DispatchKey.SparseCPUTensorId
    || t.key_set.has DispatchKey.SparseCUDATensorId
    || t.key_set.has DispatchKey.SparseHIPTensorId

/-- Modelled from the spec: `tensor.layout()`, the storage layout. The runtime does not
store it; `TensorImpl::layout()` reads it off the provenance tag: sparse, foreign-backed,
otherwise strided. -/
def Tensor.layout (t : Tensor) : Layout :=
  if t.is_sparse then Layout.Sparse
  else if t.is_mkldnn then Layout.Mkldnn
  else Layout.Strided

/-- Modelled from the spec: `tensor.scalar_type()`, the element type. -/
def Tensor.scalar_type (t : Tensor) : ScalarType := t.dtype

/-- The handle read by
`static_cast<MKLDNNTensorImpl *>(t.unsafeGetTensorImpl())->unsafe_opaque_handle()`,
defined for a tensor that is tagged foreign-backed. -/
def Tensor.unsafe_opaque_handle (t : Tensor) (h : t.is_mkldnn = true) :
    IDeepTensorWrapperPtr :=
  t.opaque_handle_.get (t.mkldnn_has_handle h)

/-- Modelled from the spec: `detail::make_tensor<MKLDNNTensorImpl>(key_set, dtype, device,
handle, sizes)`, which assembles the opaque tensor object from the given provenance tag,
dtype, device, handle and shape. An opaque tensor has no strides and no dense storage. -/
def make_tensor_MKLDNNTensorImpl (key_set : DispatchKeySet) (dtype : ScalarType)
    (device : Device) (handle : IDeepTensorWrapperPtr) (sizes : List int64_t) : Tensor :=
  { key_set := key_set
    dtype := dtype
    device := device
    sizes := sizes
    strides := []
    data_ptr := 0
    opaque_handle_ := some handle
    mkldnn_has_handle := fun _ => rfl }

/-- Modelled from the spec: a dense runtime tensor as the runtime's own construction
paths produce it, without a foreign handle; `key_set` must not hold the foreign-backed
tag. -/
def make_tensor_TensorImpl (key_set : DispatchKeySet) (dtype : ScalarType)
    (device : Device) (sizes strides : List int64_t) (data_ptr : Nat)
    (h : key_set.has DispatchKey.MkldnnCPUTensorId = false) : Tensor :=
  { key_set := key_set
    dtype := dtype
    device := device
    sizes := sizes
    strides := strides
    data_ptr := data_ptr
    opaque_handle_ := none
    mkldnn_has_handle := fun h1 => by rw [h] at h1; exact Bool.noConfusion h1 }

/-! ## The bridging functions -/

/-- The dtype mapping `get_mkldnn_dtype` (source lines 43-59): a switch over six scalar
types; the default branch is `AT_ASSERTM(false, "get_mkldnn_dtype: unsupported data type")`. -/
def get_mkldnn_dtype (type : ScalarType) : Except Error ideep.data_type :=
  match type with
  | ScalarType.Float => .ok ideep.data_type.f32
  | ScalarType.QInt32 => .ok ideep.data_type.s32
  | ScalarType.QInt8 => .ok ideep.data_type.s8
  | ScalarType.QUInt8 => .ok ideep.data_type.u8
  | ScalarType.Byte => .ok ideep.data_type.u8
  | ScalarType.BFloat16 => .ok ideep.data_type.bf16
  | _ => .error (Error.AT_ASSERTM "get_mkldnn_dtype: unsupported data type")

/-- The constructor `new_with_itensor_mkldnn` (source lines 61-70): reads the dimensions of
`it`, moves `it` into a fresh wrapper, and assembles the opaque tensor with the
foreign-backed tag, the dtype and device of `options`, the handle, and the dimensions
widened to `int64_t`. -/
def new_with_itensor_mkldnn (it : ideep.tensor) (options : TensorOptions) : Tensor :=
  let dims := it.get_dims
  let moved := std_move it
  let handle : IDeepTensorWrapperPtr := make_intrusive moved.1
  make_tensor_MKLDNNTensorImpl
    (DispatchKeySet.mk [DispatchKey.MkldnnCPUTensorId])
    options.dtype options.device handle
    (dims.map int64_of_int32)

/-- The handle extraction `itensor_from_mkldnn` (source lines 72-78): first
`AT_ASSERTM(mkldnn_tensor.is_mkldnn(), ...)`, then
`TORCH_INTERNAL_ASSERT(at::impl::variable_excluded_from_dispatch())`, then the target of the
handle of the tensor. -/
def itensor_from_mkldnn (tls : LocalDispatchKeySet) (mkldnn_tensor : Tensor) :
    Except Error ideep.tensor :=
  if h : mkldnn_tensor.is_mkldnn = true then
    if variable_excluded_from_dispatch tls = true then
      .ok (mkldnn_tensor.unsafe_opaque_handle h).get_target
    else
      .error (Error.TORCH_INTERNAL_ASSERT "at::impl::variable_excluded_from_dispatch()")
  else
    .error (Error.AT_ASSERTM "mkldnn_to_dense expects MKL-DNN tensor input")

/-- The dense view `itensor_view_from_dense` (source lines 80-93): three `AT_ASSERTM` checks
on device, layout and scalar type, in this order, then
`TORCH_INTERNAL_ASSERT(at::impl::variable_excluded_from_dispatch())`, then the descriptor
`{{{sizes().cbegin(), sizes().cend()}, f32}, data_ptr<float>()}`. After the scalar-type check
`data_ptr<float>()` is the data pointer of the tensor. -/
def itensor_view_from_dense (tls : LocalDispatchKeySet) (tensor : Tensor) :
    Except Error ideep.tensor :=
  if tensor.device.type ≠ DeviceType.CPU then
    .error (Error.AT_ASSERTM "itensor_view_from_dense expects CPU tensor input")
  else if tensor.layout ≠ Layout.Strided then
    .error (Error.AT_ASSERTM "itensor_view_from_dense expects dense tensor input")
  else if tensor.scalar_type ≠ ScalarType.Float then
    .error (Error.AT_ASSERTM "itensor_view_from_dense expects float tensor input")
  else if variable_excluded_from_dispatch tls ≠ true then
    .error (Error.TORCH_INTERNAL_ASSERT "at::impl::variable_excluded_from_dispatch()")
  else
    .ok { dims := tensor.sizes.map int32_of_int64
          data_type := ideep.data_type.f32
          data_handle := tensor.data_ptr }

/-- The dispatcher `itensor_from_tensor` (source lines 100-106). -/
def itensor_from_tensor (tls : LocalDispatchKeySet) (tensor : Tensor) :
    Except Error ideep.tensor :=
  if tensor.is_mkldnn then
    itensor_from_mkldnn tls tensor
  else
    itensor_view_from_dense tls tensor

/-- The supported set of the dtype mapping: Float, QInt32, QInt8, QUInt8, Byte, BFloat16. -/
def supported (type : ScalarType) : Bool :=
  type = ScalarType.Float || type = ScalarType.QInt32 || type = ScalarType.QInt8
    || type = ScalarType.QUInt8 || type = ScalarType.Byte || type = ScalarType.BFloat16

/-! ## Concrete values -/

/-- A thread state in which the automatic-differentiation key is excluded from dispatch. -/
def tls_excluded : LocalDispatchKeySet :=
  { included_ := DispatchKeySet.mk [], excluded_ := DispatchKeySet.mk [DispatchKey.VariableTensorId] }

/-- A thread state in which automatic-differentiation bookkeeping is still active. -/
def tls_active : LocalDispatchKeySet :=
  { included_ := DispatchKeySet.mk [], excluded_ := DispatchKeySet.mk [] }

/-- The host device. -/
def cpu : Device := { type := DeviceType.CPU, index := 0 }

/-- Options of a float tensor on the host. -/
def float_cpu : TensorOptions := { dtype := ScalarType.Float, device := cpu }

/-- A foreign tensor value of dimensions [2, 3]. -/
def it_2x3 : ideep.tensor :=
  { dims := [⟨2, by decide⟩, ⟨3, by decide⟩]
    data_type := ideep.data_type.f32
    data_handle := 4096 }

/-- A dense float tensor of shape [2, 3] on the host, in row-major order. -/
def dense_2x3 : Tensor :=
  make_tensor_TensorImpl (DispatchKeySet.mk [DispatchKey.CPUTensorId]) ScalarType.Float cpu
    [⟨2, by decide⟩, ⟨3, by decide⟩] [⟨3, by decide⟩, ⟨1, by decide⟩] 4096 rfl

/-- A dense float vector of 2147483648 elements on the host. -/
def dense_big : Tensor :=
  make_tensor_TensorImpl (DispatchKeySet.mk [DispatchKey.CPUTensorId]) ScalarType.Float cpu
    [⟨2147483648, by decide⟩] [⟨1, by decide⟩] 4096 rfl

/-- A sparse double tensor on a CUDA device: it violates all three preconditions of the
dense view at once. -/
def sparse_cuda_double : Tensor :=
  make_tensor_TensorImpl (DispatchKeySet.mk [DispatchKey.SparseCUDATensorId]) ScalarType.Double
    { type := DeviceType.CUDA, index := 0 } [⟨4, by decide⟩] [] 0 rfl

/-! ## The dtype mapping -/

/-- Claim C1: `get_mkldnn_dtype` sends Float to f32, QInt32 to s32, QInt8 to s8, Byte to u8,
QUInt8 to u8 and BFloat16 to bf16; Byte and QUInt8 share the result u8, and two distinct
supported types with the same result are exactly Byte and QUInt8. -/
theorem get_mkldnn_dtype_table :
    get_mkldnn_dtype ScalarType.Float = .ok ideep.data_type.f32
    ∧ get_mkldnn_dtype ScalarType.QInt32 = .ok ideep.data_type.s32
    ∧ get_mkldnn_dtype ScalarType.QInt8 = .ok ideep.data_type.s8
    ∧ get_mkldnn_dtype ScalarType.Byte = .ok ideep.data_type.u8
    ∧ get_mkldnn_dtype ScalarType.QUInt8 = .ok ideep.data_type.u8
    ∧ get_mkldnn_dtype ScalarType.BFloat16 = .ok ideep.data_type.bf16
    ∧ get_mkldnn_dtype ScalarType.Byte = get_mkldnn_dtype ScalarType.QUInt8
    ∧ ∀ a b : ScalarType, supported a = true → supported b = true → a ≠ b →
        get_mkldnn_dtype a = get_mkldnn_dtype b →
        (a = ScalarType.Byte ∧ b = ScalarType.QUInt8)
          ∨ (a = ScalarType.QUInt8 ∧ b = ScalarType.Byte) := by
  refine ⟨rfl, rfl, rfl, rfl, rfl, rfl, rfl, ?_⟩
  intro a b ha hb hab h
  cases a <;> cases b <;> simp_all [supported, get_mkldnn_dtype]

/-- Witness of claim C1 at the pair Byte, QUInt8. -/
theorem get_mkldnn_dtype_table_witness :
    (ScalarType.Byte = ScalarType.Byte ∧ ScalarType.QUInt8 = ScalarType.QUInt8)
      ∨ (ScalarType.Byte = ScalarType.QUInt8 ∧ ScalarType.QUInt8 = ScalarType.Byte) :=
  get_mkldnn_dtype_table.2.2.2.2.2.2.2 ScalarType.Byte ScalarType.QUInt8
    (by decide) (by decide) (by decide) rfl

/-- Claim C2: `get_mkldnn_dtype` raises the unsupported-dtype error, and returns no value,
exactly on the scalar types outside the supported set; Int, Char, Double, Half, Long and
Bool are among them. -/
theorem get_mkldnn_dtype_unsupported (type : ScalarType) :
    (supported type = false →
      get_mkldnn_dtype type = .error (Error.AT_ASSERTM "get_mkldnn_dtype: unsupported data type")
      ∧ ∀ dt, get_mkldnn_dtype type ≠ .ok dt)
    ∧ ((∃ e, get_mkldnn_dtype type = .error e) ↔ supported type = false)
    ∧ ((∃ dt, get_mkldnn_dtype type = .ok dt) ↔ supported type = true)
    ∧ supported ScalarType.Int = false ∧ supported ScalarType.Char = false
    ∧ supported ScalarType.Double = false ∧ supported ScalarType.Half = false
    ∧ supported ScalarType.Long = false ∧ supported ScalarType.Bool = false := by
  refine ⟨?_, ?_, ?_, rfl, rfl, rfl, rfl, rfl, rfl⟩
  · intro h
    cases type <;> simp_all [supported, get_mkldnn_dtype]
  · cases type <;> simp [supported, get_mkldnn_dtype]
  · cases type <;> simp [supported, get_mkldnn_dtype]

/-- Witness of claim C2 at Double. -/
theorem get_mkldnn_dtype_unsupported_witness :
    get_mkldnn_dtype ScalarType.Double
        = .error (Error.AT_ASSERTM "get_mkldnn_dtype: unsupported data type")
      ∧ ∀ dt, get_mkldnn_dtype ScalarType.Double ≠ .ok dt :=
  (get_mkldnn_dtype_unsupported ScalarType.Double).1 (by decide)

/-- Counterexample to claim C10: Double and Long are two different unsupported scalar types,
and `get_mkldnn_dtype` raises one and the same error, with the same message, for both. -/
theorem get_mkldnn_dtype_error_counterexample :
    ScalarType.Double ≠ ScalarType.Long
    ∧ supported ScalarType.Double = false ∧ supported ScalarType.Long = false
    ∧ get_mkldnn_dtype ScalarType.Double = get_mkldnn_dtype ScalarType.Long
    ∧ ¬ (∀ e1 e2, get_mkldnn_dtype ScalarType.Double = .error e1 →
          get_mkldnn_dtype ScalarType.Long = .error e2 → e1.what ≠ e2.what) := by
  refine ⟨by decide, rfl, rfl, rfl, ?_⟩
  intro h
  exact h _ _ rfl rfl rfl

/-- Claim C10, amended: for every unsupported scalar type the error raised by
`get_mkldnn_dtype` is the fixed message "get_mkldnn_dtype: unsupported data type"; the error
does not depend on the offending type, so any two unsupported types raise the same error. -/
theorem get_mkldnn_dtype_error_fixed (a b : ScalarType)
    (ha : supported a = false) (hb : supported b = false) :
    get_mkldnn_dtype a = .error (Error.AT_ASSERTM "get_mkldnn_dtype: unsupported data type")
    ∧ get_mkldnn_dtype a = get_mkldnn_dtype b := by
  cases a <;> cases b <;> simp_all [supported, get_mkldnn_dtype]

/-- Witness of the amended claim C10 at Double and Long. -/
theorem get_mkldnn_dtype_error_fixed_witness :
    get_mkldnn_dtype ScalarType.Double
        = .error (Error.AT_ASSERTM "get_mkldnn_dtype: unsupported data type")
      ∧ get_mkldnn_dtype ScalarType.Double = get_mkldnn_dtype ScalarType.Long :=
  get_mkldnn_dtype_error_fixed ScalarType.Double ScalarType.Long (by decide) (by decide)

/-! ## Construction and extraction of the foreign handle -/

/-- Widening an `int32_t` to `int64_t` keeps its value. -/
theorem int64_of_int32_val (x : int32_t) : (int64_of_int32 x).val = x.val := by
  obtain ⟨v, h1, h2⟩ := x
  simp only [int64_of_int32, wrap]
  norm_num
  omega

/-- Narrowing an `int64_t` that lies in the range of `int32_t` keeps its value. -/
theorem int32_of_int64_val (x : int64_t) (h : -2147483648 ≤ x.val ∧ x.val < 2147483648) :
    (int32_of_int64 x).val = x.val := by
  obtain ⟨v, h1, h2⟩ := x
  simp only [int32_of_int64, wrap] at *
  norm_num
  omega

/-- The tensor built by `new_with_itensor_mkldnn` is tagged foreign-backed. -/
theorem new_with_itensor_mkldnn_is_mkldnn (it : ideep.tensor) (options : TensorOptions) :
    (new_with_itensor_mkldnn it options).is_mkldnn = true := by
  rfl

/-- Claim C3: the sizes of the tensor built by `new_with_itensor_mkldnn it options` are the
dimensions of `it`, each converted to `int64_t`: same length, same order, and
`sizes[i] = d[i]` at every index. They are read from `it` as it is passed in, before the
move: the wrapper receives the whole value and the state left behind has no dimensions. -/
theorem new_with_itensor_mkldnn_sizes (it : ideep.tensor) (options : TensorOptions) :
    (new_with_itensor_mkldnn it options).sizes = it.get_dims.map int64_of_int32
    ∧ (new_with_itensor_mkldnn it options).sizes.length = it.get_dims.length
    ∧ (∀ i : Nat, ((new_with_itensor_mkldnn it options).sizes[i]?).map int64_t.val
        = (it.get_dims[i]?).map int32_t.val)
    ∧ (new_with_itensor_mkldnn it options).opaque_handle_ = some (make_intrusive it)
    ∧ (std_move it).1 = it ∧ (std_move it).2.get_dims = [] := by
  refine ⟨rfl, ?_, ?_, rfl, rfl, rfl⟩
  · show (it.get_dims.map int64_of_int32).length = _
    exact List.length_map _ _
  · intro i
    show ((it.get_dims.map int64_of_int32)[i]?).map int64_t.val = _
    rw [List.getElem?_map]
    cases it.get_dims[i]? with
    | none => rfl
    | some d => exact congrArg some (int64_of_int32_val d)

/-- Claim C4: when autograd dispatch is excluded, the tensor built by
`new_with_itensor_mkldnn it options` is tagged foreign-backed and `itensor_from_mkldnn`
returns from it exactly `it`, the value that the wrapper's constructor stored and that
`get_target` reads back. -/
theorem itensor_from_mkldnn_new_with_itensor_mkldnn (tls : LocalDispatchKeySet)
    (it : ideep.tensor) (options : TensorOptions)
    (hvar : variable_excluded_from_dispatch tls = true) :
    (new_with_itensor_mkldnn it options).is_mkldnn = true
    ∧ itensor_from_mkldnn tls (new_with_itensor_mkldnn it options) = .ok it
    ∧ (make_intrusive it).get_target = it := by
  refine ⟨rfl, ?_, rfl⟩
  simp only [itensor_from_mkldnn, new_with_itensor_mkldnn_is_mkldnn, hvar, dite_true, if_true]
  rfl

/-- Witness of claim C4 at the foreign value of dimensions [2, 3]. -/
theorem itensor_from_mkldnn_new_with_itensor_mkldnn_witness :
    variable_excluded_from_dispatch tls_excluded = true
    ∧ (new_with_itensor_mkldnn it_2x3 float_cpu).is_mkldnn = true
    ∧ itensor_from_mkldnn tls_excluded (new_with_itensor_mkldnn it_2x3 float_cpu) = .ok it_2x3
    ∧ (make_intrusive it_2x3).get_target = it_2x3 :=
  ⟨rfl, itensor_from_mkldnn_new_with_itensor_mkldnn tls_excluded it_2x3 float_cpu rfl⟩

/-- Claim C5: `itensor_from_mkldnn` returns a handle exactly when the tensor is foreign-backed
and autograd dispatch is excluded. A tensor that is not foreign-backed fails with the
provenance error whatever the autograd state; a foreign-backed tensor fails with the
internal assertion when autograd bookkeeping is still active. -/
theorem itensor_from_mkldnn_returns_iff (tls : LocalDispatchKeySet) (t : Tensor) :
    ((∃ it, itensor_from_mkldnn tls t = .ok it)
      ↔ (t.is_mkldnn = true ∧ variable_excluded_from_dispatch tls = true))
    ∧ (t.is_mkldnn = false →
        itensor_from_mkldnn tls t
          = .error (Error.AT_ASSERTM "mkldnn_to_dense expects MKL-DNN tensor input")
        ∧ ∀ it, itensor_from_mkldnn tls t ≠ .ok it)
    ∧ (t.is_mkldnn = true → variable_excluded_from_dispatch tls = false →
        itensor_from_mkldnn tls t
          = .error (Error.TORCH_INTERNAL_ASSERT "at::impl::variable_excluded_from_dispatch()")) := by
  refine ⟨?_, ?_, ?_⟩
  · by_cases hm : t.is_mkldnn = true <;>
      by_cases hv : variable_excluded_from_dispatch tls = true <;>
      simp [itensor_from_mkldnn, hm, hv]
  · intro hm
    simp [itensor_from_mkldnn, hm]
  · intro hm hv
    simp [itensor_from_mkldnn, hm, hv]

/-- Witness of claim C5: a dense tensor fails with the provenance error although autograd
dispatch is excluded. -/
theorem itensor_from_mkldnn_returns_iff_witness :
    itensor_from_mkldnn tls_excluded dense_2x3
        = .error (Error.AT_ASSERTM "mkldnn_to_dense expects MKL-DNN tensor input")
      ∧ ∀ it, itensor_from_mkldnn tls_excluded dense_2x3 ≠ .ok it :=
  (itensor_from_mkldnn_returns_iff tls_excluded dense_2x3).2.1 rfl

/-! ## The dense view -/

/-- Claim C7: `itensor_view_from_dense` fails whenever the device is not CPU, the layout is
not Strided or the scalar type is not Float. The message is that of the first violated
condition in the order device, layout, element type, and the three messages are pairwise
distinct. -/
theorem itensor_view_from_dense_preconditions (tls : LocalDispatchKeySet) (t : Tensor) :
    (t.device.type ≠ DeviceType.CPU →
      itensor_view_from_dense tls t
        = .error (Error.AT_ASSERTM "itensor_view_from_dense expects CPU tensor input"))
    ∧ (t.device.type = DeviceType.CPU → t.layout ≠ Layout.Strided →
      itensor_view_from_dense tls t
        = .error (Error.AT_ASSERTM "itensor_view_from_dense expects dense tensor input"))
    ∧ (t.device.type = DeviceType.CPU → t.layout = Layout.Strided →
       t.scalar_type ≠ ScalarType.Float →
      itensor_view_from_dense tls t
        = .error (Error.AT_ASSERTM "itensor_view_from_dense expects float tensor input"))
    ∧ ((t.device.type ≠ DeviceType.CPU ∨ t.layout ≠ Layout.Strided
          ∨ t.scalar_type ≠ ScalarType.Float) →
        (∃ e, itensor_view_from_dense tls t = .error e)
        ∧ ∀ d, itensor_view_from_dense tls t ≠ .ok d)
    ∧ "itensor_view_from_dense expects CPU tensor input"
        ≠ "itensor_view_from_dense expects dense tensor input"
    ∧ "itensor_view_from_dense expects CPU tensor input"
        ≠ "itensor_view_from_dense expects float tensor input"
    ∧ "itensor_view_from_dense expects dense tensor input"
        ≠ "itensor_view_from_dense expects float tensor input" := by
  refine ⟨?_, ?_, ?_, ?_, by decide, by decide, by decide⟩
  · intro hd
    simp [itensor_view_from_dense, hd]
  · intro hd hl
    simp [itensor_view_from_dense, hd, hl]
  · intro hd hl hf
    simp [itensor_view_from_dense, hd, hl, hf]
  · intro h
    by_cases hd : t.device.type = DeviceType.CPU
    · by_cases hl : t.layout = Layout.Strided
      · by_cases hf : t.scalar_type = ScalarType.Float
        · simp [hd, hl, hf] at h
        · simp [itensor_view_from_dense, hd, hl, hf]
      · simp [itensor_view_from_dense, hd, hl]
    · simp [itensor_view_from_dense, hd]

/-- Witness of claim C7: a sparse double tensor on a CUDA device violates all three
conditions and the message is that of the device check. -/
theorem itensor_view_from_dense_preconditions_witness :
    sparse_cuda_double.layout ≠ Layout.Strided
    ∧ sparse_cuda_double.scalar_type ≠ ScalarType.Float
    ∧ itensor_view_from_dense tls_active sparse_cuda_double
        = .error (Error.AT_ASSERTM "itensor_view_from_dense expects CPU tensor input") :=
  ⟨by decide, by decide,
    (itensor_view_from_dense_preconditions tls_active sparse_cuda_double).1 (by decide)⟩

/-- Counterexample to claim C8: a float vector of 2147483648 elements on the host, with
Strided layout and autograd dispatch excluded, yields a descriptor whose only dimension is
-2147483648; its dimension sequence is not the tensor's sizes. -/
theorem itensor_view_from_dense_dims_counterexample :
    dense_big.device.type = DeviceType.CPU ∧ dense_big.layout = Layout.Strided
    ∧ dense_big.scalar_type = ScalarType.Float
    ∧ variable_excluded_from_dispatch tls_excluded = true
    ∧ dense_big.sizes.map int64_t.val = [2147483648]
    ∧ itensor_view_from_dense tls_excluded dense_big
        = .ok { dims := [⟨-2147483648, by decide⟩]
                data_type := ideep.data_type.f32
                data_handle := 4096 }
    ∧ ¬ ∃ d, itensor_view_from_dense tls_excluded dense_big = .ok d
          ∧ d.get_dims.map int32_t.val = dense_big.sizes.map int64_t.val := by
  refine ⟨rfl, rfl, rfl, rfl, rfl, rfl, ?_⟩
  rintro ⟨d, hd, hdims⟩
  have h : d = { dims := [⟨-2147483648, by decide⟩]
                 data_type := ideep.data_type.f32
                 data_handle := 4096 } :=
    (Except.ok.inj hd).symm
  subst h
  revert hdims
  decide

/-- The values of a size sequence narrowed to `int32_t` are the sizes themselves when every
size lies in the range of `int32_t`. -/
theorem map_int32_of_int64_val (sizes : List int64_t)
    (h : ∀ s ∈ sizes, -2147483648 ≤ s.val ∧ s.val < 2147483648) :
    (sizes.map int32_of_int64).map int32_t.val = sizes.map int64_t.val := by
  induction sizes with
  | nil => rfl
  | cons s rest ih =>
    have hs := int32_of_int64_val s (h s (List.mem_cons_self s rest))
    have hrest := ih (fun x hx => h x (List.mem_cons_of_mem s hx))
    simp only [List.map_cons, hs, hrest]

/-- Claim C8, amended: for every tensor on CPU with Strided layout and Float element type
(autograd dispatch excluded) whose sizes all fit the signed 32-bit dimension type of the
foreign library, `itensor_view_from_dense` succeeds; the descriptor's data pointer is the
tensor's own data pointer, its data type is f32, and its dimension sequence equals the
tensor's sizes, in the same order and count. Nothing is stated for sizes that do not fit. -/
theorem itensor_view_from_dense_view (tls : LocalDispatchKeySet) (t : Tensor)
    (hcpu : t.device.type = DeviceType.CPU) (hlayout : t.layout = Layout.Strided)
    (hfloat : t.scalar_type = ScalarType.Float)
    (hvar : variable_excluded_from_dispatch tls = true)
    (hfit : ∀ s ∈ t.sizes, -2147483648 ≤ s.val ∧ s.val < 2147483648) :
    ∃ d, itensor_view_from_dense tls t = .ok d
      ∧ d.data_handle = t.data_ptr
      ∧ d.data_type = ideep.data_type.f32
      ∧ d.get_dims.length = t.sizes.length
      ∧ d.get_dims.map int32_t.val = t.sizes.map int64_t.val
      ∧ ∀ i : Nat, (d.get_dims[i]?).map int32_t.val = (t.sizes[i]?).map int64_t.val := by
  have hdims : (t.sizes.map int32_of_int64).map int32_t.val = t.sizes.map int64_t.val :=
    map_int32_of_int64_val t.sizes hfit
  refine ⟨{ dims := t.sizes.map int32_of_int64
            data_type := ideep.data_type.f32
            data_handle := t.data_ptr }, ?_, rfl, rfl, ?_, hdims, ?_⟩
  · simp [itensor_view_from_dense, hcpu, hlayout, hfloat, hvar]
  · exact List.length_map _ _
  · intro i
    show ((t.sizes.map int32_of_int64)[i]?).map int32_t.val = _
    have h := congrArg (fun l : List Int => l[i]?) hdims
    simpa only [List.getElem?_map] using h

/-- Witness of the amended claim C8: the dense [2, 3] tensor yields a descriptor over its own
data pointer, of type f32 and with dimensions [2, 3]. -/
theorem itensor_view_from_dense_view_witness :
    ∃ d, itensor_view_from_dense tls_excluded dense_2x3 = .ok d
      ∧ d.data_handle = dense_2x3.data_ptr
      ∧ d.data_type = ideep.data_type.f32
      ∧ d.get_dims.length = dense_2x3.sizes.length
      ∧ d.get_dims.map int32_t.val = dense_2x3.sizes.map int64_t.val
      ∧ ∀ i : Nat, (d.get_dims[i]?).map int32_t.val
          = (dense_2x3.sizes[i]?).map int64_t.val :=
  itensor_view_from_dense_view tls_excluded dense_2x3 rfl rfl rfl rfl (by decide)

/-! ## The dispatcher -/

/-- Counterexample to claim C9: while autograd bookkeeping is still active, the dispatcher
applied to the tensor built by `new_with_itensor_mkldnn it_2x3 float_cpu` does not return
`it_2x3`; it fails with the internal assertion. -/
theorem itensor_from_tensor_counterexample :
    itensor_from_tensor tls_active (new_with_itensor_mkldnn it_2x3 float_cpu)
        = .error (Error.TORCH_INTERNAL_ASSERT "at::impl::variable_excluded_from_dispatch()")
    ∧ itensor_from_tensor tls_active (new_with_itensor_mkldnn it_2x3 float_cpu)
        ≠ .ok it_2x3 := by
  refine ⟨rfl, ?_⟩
  intro h
  exact Except.noConfusion h

/-- Claim C9, amended: `itensor_from_tensor t` has exactly the outcome of
`itensor_from_mkldnn t` when `t` is foreign-backed and exactly the outcome of
`itensor_view_from_dense t` otherwise; a foreign-backed tensor never gets one of the
precondition errors of the dense view; and for a tensor built by
`new_with_itensor_mkldnn it options` the dispatcher returns `it` when autograd dispatch is
excluded. -/
theorem itensor_from_tensor_dispatch (tls : LocalDispatchKeySet) (t : Tensor) :
    (t.is_mkldnn = true → itensor_from_tensor tls t = itensor_from_mkldnn tls t)
    ∧ (t.is_mkldnn = false → itensor_from_tensor tls t = itensor_view_from_dense tls t)
    ∧ (t.is_mkldnn = true → ∀ msg, itensor_from_tensor tls t ≠ .error (Error.AT_ASSERTM msg))
    ∧ (variable_excluded_from_dispatch tls = true → ∀ it options,
        itensor_from_tensor tls (new_with_itensor_mkldnn it options) = .ok it) := by
  refine ⟨?_, ?_, ?_, ?_⟩
  · intro hm
    simp [itensor_from_tensor, hm]
  · intro hm
    simp [itensor_from_tensor, hm]
  · intro hm msg
    by_cases hv : variable_excluded_from_dispatch tls = true <;>
      simp [itensor_from_tensor, itensor_from_mkldnn, hm, hv]
  · intro hv it options
    simp only [itensor_from_tensor, new_with_itensor_mkldnn_is_mkldnn, if_true,
      itensor_from_mkldnn, hv, dite_true]
    rfl

/-- Witness of the amended claim C9 at the foreign value of dimensions [2, 3]. -/
theorem itensor_from_tensor_dispatch_witness :
    itensor_from_tensor tls_excluded (new_with_itensor_mkldnn it_2x3 float_cpu) = .ok it_2x3 :=
  (itensor_from_tensor_dispatch tls_excluded (new_with_itensor_mkldnn it_2x3 float_cpu)).2.2.2
    rfl it_2x3 float_cpu

end MKLDNNCommon
